import Mathlib

/-!
Shallow embedding of `src/app/routes/api.remove.ts` (two route modules joined
in that file: a Direct-Upload action and a Catalog-Aware action) together with
the base64 transport encoding used by `buffer.toString("base64")` and
`Buffer.from(str, "base64")` in Node.

Bytes are modelled as `List Nat` with each element `< 256` stated as a
hypothesis where it matters.
-/

/-- The standard base64 alphabet used by Node's `Buffer` base64 codec. -/
def b64alphabet : List Char :=
  "ABCDEFGHIJKLMNOPQRSTUVWXYZabcdefghijklmnopqrstuvwxyz0123456789+/".data

/-- Sextet value `n` (with `n < 64`) rendered as a base64 alphabet character. -/
def b64char (n : Nat) : Char := b64alphabet.getD n 'A'

/-- Inverse of the alphabet table: position of a character in the base64
alphabet (as Node's decoder table does for canonical input). -/
def sextet (c : Char) : Nat := b64alphabet.indexOf c

/-- Base64 encoding of a byte list, three bytes to four characters, with `=`
padding, as produced by `buffer.toString("base64")`. -/
def encodeB64chars : List Nat → List Char
  | [] => []
  | [a] => [b64char (a / 4), b64char (a % 4 * 16), '=', '=']
  | [a, b] => [b64char (a / 4), b64char (a % 4 * 16 + b / 16), b64char (b % 16 * 4), '=']
  | a :: b :: c :: rest =>
      b64char (a / 4) :: b64char (a % 4 * 16 + b / 16) ::
      b64char (b % 16 * 4 + c / 64) :: b64char (c % 64) :: encodeB64chars rest

/-- Base64 decoding of a character list, as `Buffer.from(str, "base64")`
behaves on canonical base64 text: four characters to three bytes, with `=`
padding cutting the final group short. -/
def decodeB64chars : List Char → List Nat
  | w :: x :: y :: z :: rest =>
      if y = '=' then [sextet w * 4 + sextet x / 16]
      else if z = '=' then [sextet w * 4 + sextet x / 16, sextet x % 16 * 16 + sextet y / 4]
      else (sextet w * 4 + sextet x / 16) :: (sextet x % 16 * 16 + sextet y / 4) ::
           (sextet y % 4 * 64 + sextet z) :: decodeB64chars rest
  | _ => []

/-- `buffer.toString("base64")`. -/
def encodeB64 (l : List Nat) : String := String.mk (encodeB64chars l)

/-- `Buffer.from(s, "base64")`. -/
def decodeB64 (s : String) : List Nat := decodeB64chars s.data

deriving instance DecidableEq for Except

/-- Thrown JavaScript value: either an `Error` instance carrying a message, or
some non-`Error` value. -/
inductive JsErr
  | err (msg : String)
  | other
  deriving DecidableEq

/-- Message extraction performed by the Catalog-Aware catch:
`error instanceof Error ? error.message : "Unknown error"`. -/
def jsErrMessage : JsErr → String
  | .err m => m
  | .other => "Unknown error"

/-- An uploaded `File`: its `name` and its content bytes (`size` is the
length of the content). -/
structure FileVal where
  name : String
  content : List Nat
  deriving DecidableEq

/-- A value returned by `formData.get(...)`: a `File` or a string field. A
missing field (`null`) is modelled by `Option`. -/
inductive FormValue
  | file (f : FileVal)
  | str (s : String)
  deriving DecidableEq

/-- JavaScript truthiness of a `formData.get` result: `null` and `""` are
falsy, any `File` object and any non-empty string are truthy. -/
def jsTruthy : Option FormValue → Bool
  | none => false
  | some (.str s) => decide (s ≠ "")
  | some (.file _) => true

/-- JavaScript truthiness test `!v` for `string | undefined | null` values:
`undefined`/`null` and `""` are falsy. Used for `process.env.REMOVE_BG_API_KEY`
and for the `imageUrl` form field. -/
def optStrFalsy : Option String → Bool
  | none => true
  | some s => decide (s = "")

/-- One invocation of the remove.bg provider: either
`removeBackgroundFromImageBase64({base64img, apiKey, size, type})` or
`removeBackgroundFromImageUrl({url, apiKey, size, type})`. -/
inductive GatewayCall
  | base64Call (base64img apiKey size ty : String)
  | urlCall (url apiKey size ty : String)
  deriving DecidableEq

/-- Body of an outbound response: a plain-text body, a JSON error envelope
`{error: ...}`, the Catalog-Aware success object
`{success: true, processedImageBase64, originalName}`, or raw binary bytes. -/
inductive RespBody
  | text (s : String)
  | jsonError (error : String)
  | success (processedImageBase64 : String) (originalName : String)
  | binary (bytes : List Nat)
  deriving DecidableEq

/-- An HTTP response as shaped by the handlers: status, body, and the two
headers the Direct-Upload handler sets explicitly. -/
structure HttpResponse where
  status : Nat
  body : RespBody
  contentType : Option String
  contentLength : Option String
  deriving DecidableEq

/-- Reading the bytes of the `image` form value:
`Buffer.from(await imageFile.arrayBuffer())`. On a `File` this yields its
content bytes; on a string or `null` (the value was cast `as File`), the
`.arrayBuffer` member is absent and a `TypeError` is thrown. -/
def arrayBufferOf : Option FormValue → Except JsErr (List Nat)
  | some (.file f) => .ok f.content
  | some (.str _) => .error (.err "imageFile.arrayBuffer is not a function")
  | none => .error (.err "imageFile.arrayBuffer is not a function")

namespace Direct

/-- The Direct-Upload `action` of `src/app/routes/api.remove.ts` (first
module in the file). Inputs model its collaborators: `session` is the result
of `authenticate.public.appProxy` (modelled from the spec: the collaborator
returns a session object or an unauthenticated signal), `formData` is the
result of `await request.formData()` (which may throw), `apiKey` is
`process.env.REMOVE_BG_API_KEY`, and `gw` is the remove.bg provider, whose
answer is `result.base64img` or a thrown error. The returned pair is the
handler's outcome (`.error` meaning an exception escaped the handler
unhandled) together with the list of Gateway calls made. -/
def action (session : Option Unit) (formData : Except JsErr (Option FormValue))
    (apiKey : Option String) (gw : GatewayCall → Except JsErr String) :
    Except JsErr HttpResponse × List GatewayCall :=
  match session with
  | none => (.ok ⟨401, .text "Unauthorized", none, none⟩, [])
  | some _ =>
    match formData with
    | .error e => (.error e, [])
    | .ok imageFile =>
      if jsTruthy imageFile = false then
        (.ok ⟨400, .jsonError "No image provided", none, none⟩, [])
      else
        match arrayBufferOf imageFile with
        | .error e => (.error e, [])
        | .ok buffer =>
          if optStrFalsy apiKey = true then
            (.ok ⟨500, .jsonError "Background removal service not configured", none, none⟩, [])
          else
            let call := GatewayCall.base64Call (encodeB64 buffer) (apiKey.getD "")
              "regular" "auto"
            match gw call with
            | .error _ =>
              (.ok ⟨500, .jsonError "Failed to process image", none, none⟩, [call])
            | .ok result =>
              let processed := decodeB64 result
              (.ok ⟨200, .binary processed, some "image/png",
                some (toString processed.length)⟩, [call])

end Direct

namespace Catalog

/-- Modelled from the spec: `authenticate.admin` from `app/shopify.server`
(imported by the route but not under `src/`). Per the spec, absence or
invalidity of the caller session yields result Unauthorized (HTTP 401) with
no further processing: the collaborator aborts the request before the handler
body runs, and that abort surfaces to the caller as the 401 response. -/
def adminAuthAbort : HttpResponse := ⟨401, .text "Unauthorized", none, none⟩

/-- The validation test `(!imageFile || imageFile.size === 0) && !imageUrl`.
For a string-valued `image` field, `!imageFile` is its string falsiness and
`imageFile.size === 0` is `undefined === 0`, i.e. false. -/
def noImage (imageFile : Option FormValue) (imageUrl : Option String) : Bool :=
  (match imageFile with
    | none => true
    | some (.str s) => decide (s = "")
    | some (.file f) => decide (f.content.length = 0)) && optStrFalsy imageUrl

/-- The `base64img` variable: set to the base64 encoding of the file bytes
when `imageFile && imageFile.size > 0`, and left `""` otherwise. -/
def catalogBase64img : Option FormValue → String
  | some (.file f) => if f.content.length > 0 then encodeB64 f.content else ""
  | _ => ""

/-- The `originalName` expression:
`imageFile && imageFile.name ? imageFile.name : (imageUrl ? "Store Product Image" : "Processed Image")`. -/
def origName (imageFile : Option FormValue) (imageUrl : Option String) : String :=
  match imageFile with
  | some (.file f) =>
      if f.name = "" then
        (if optStrFalsy imageUrl = true then "Processed Image" else "Store Product Image")
      else f.name
  | _ => if optStrFalsy imageUrl = true then "Processed Image" else "Store Product Image"

/-- The Catalog-Aware `action` of `src/app/routes/api.remove.ts` (second
module in the file). `adminOk` is whether `authenticate.admin` accepts the
request (see `adminAuthAbort`); `formData` yields the `image` and `imageUrl`
fields; `apiKey` is `process.env.REMOVE_BG_API_KEY`; `gw` is the remove.bg
provider. The returned pair is the handler outcome (`.error` meaning an
exception escaped unhandled) and the list of Gateway calls made. A success
is the plain object `{success, processedImageBase64, originalName}`, which
the framework serializes with status 200. -/
def action (adminOk : Bool) (formData : Except JsErr (Option FormValue × Option String))
    (apiKey : Option String) (gw : GatewayCall → Except JsErr String) :
    Except JsErr HttpResponse × List GatewayCall :=
  if adminOk = false then (.ok adminAuthAbort, [])
  else
    match formData with
    | .error e => (.error e, [])
    | .ok (imageFile, imageUrl) =>
      if noImage imageFile imageUrl = true then
        (.ok ⟨400, .jsonError "No image provided", none, none⟩, [])
      else
        if optStrFalsy apiKey = true then
          (.ok ⟨500, .jsonError
            "Background removal service not configured (missing REMOVE_BG_API_KEY).",
            none, none⟩, [])
        else
          let base64img := catalogBase64img imageFile
          let call := if base64img ≠ "" then
              GatewayCall.base64Call base64img (apiKey.getD "") "regular" "auto"
            else
              GatewayCall.urlCall (imageUrl.getD "") (apiKey.getD "") "regular" "auto"
          match gw call with
          | .error e =>
              (.ok ⟨500, .jsonError ("Failed to process image: " ++ jsErrMessage e),
                none, none⟩, [call])
          | .ok result =>
              (.ok ⟨200, .success result (origName imageFile imageUrl), none, none⟩, [call])

end Catalog

theorem sextet_b64char : ∀ n < 64, sextet (b64char n) = n := by decide

theorem b64char_ne_pad : ∀ n < 64, b64char n ≠ '=' := by decide

theorem decode_encode_chars :
    ∀ l : List Nat, (∀ b ∈ l, b < 256) → decodeB64chars (encodeB64chars l) = l
  | [], _ => rfl
  | [a], h => by
      have ha : a < 256 := h a (by simp)
      simp only [encodeB64chars, decodeB64chars, if_true]
      rw [sextet_b64char _ (by omega), sextet_b64char _ (by omega)]
      simp only [List.cons.injEq, and_true]
      omega
  | [a, b], h => by
      have ha : a < 256 := h a (by simp)
      have hb : b < 256 := h b (by simp)
      simp only [encodeB64chars, decodeB64chars]
      rw [if_neg (b64char_ne_pad _ (by omega))]
      simp only [if_true]
      rw [sextet_b64char _ (by omega), sextet_b64char _ (by omega),
        sextet_b64char _ (by omega)]
      simp only [List.cons.injEq, and_true]
      omega
  | a :: b :: c :: rest, h => by
      have ha : a < 256 := h a (by simp)
      have hb : b < 256 := h b (by simp)
      have hc : c < 256 := h c (by simp)
      have ih := decode_encode_chars rest (fun x hx => h x (by simp [hx]))
      simp only [encodeB64chars, decodeB64chars]
      rw [if_neg (b64char_ne_pad _ (by omega)), if_neg (b64char_ne_pad _ (by omega))]
      rw [sextet_b64char _ (by omega), sextet_b64char _ (by omega),
        sextet_b64char _ (by omega), sextet_b64char _ (by omega), ih]
      simp only [List.cons.injEq, and_true]
      refine ⟨by omega, by omega, by omega⟩

theorem encodeB64chars_ne_nil : ∀ l : List Nat, l ≠ [] → encodeB64chars l ≠ [] := by
  intro l hl
  match l with
  | [] => exact absurd rfl hl
  | [a] => simp [encodeB64chars]
  | [a, b] => simp [encodeB64chars]
  | a :: b :: c :: rest => simp [encodeB64chars]

theorem encodeB64_ne_empty (l : List Nat) (hl : l ≠ []) : encodeB64 l ≠ "" := by
  intro h
  have hdata : encodeB64chars l = [] := congrArg String.data h
  exact encodeB64chars_ne_nil l hl hdata

theorem optStrFalsy_none : optStrFalsy none = true := rfl

theorem optStrFalsy_some (s : String) : optStrFalsy (some s) = decide (s = "") := rfl


/-- Claim C8 (confirmed): for every byte sequence (including the empty one),
encoding it with the base64 encoder used at the Gateway boundary and decoding
the resulting text with the decoder used on the Direct-Upload response path
yields a byte-identical sequence. -/
theorem base64_roundtrip (l : List Nat) (h : ∀ b ∈ l, b < 256) :
    decodeB64 (encodeB64 l) = l :=
  decode_encode_chars l h

/-- Witness for `base64_roundtrip` at a concrete byte list. -/
theorem base64_roundtrip_witness :
    (∀ b ∈ [0, 1, 2, 77, 255, 100], b < 256) ∧
      decodeB64 (encodeB64 [0, 1, 2, 77, 255, 100]) = [0, 1, 2, 77, 255, 100] :=
  ⟨by decide, base64_roundtrip [0, 1, 2, 77, 255, 100] (by decide)⟩

/-- Claim C4 (confirmed): when the caller session is absent or invalid, the
Direct-Upload handler answers 401 and the Catalog-Aware handler is aborted by
the admin authenticator with a 401, in both cases for every form body and
configuration, with zero Gateway calls. -/
theorem unauthenticated_rejected
    (formDataD : Except JsErr (Option FormValue))
    (formDataC : Except JsErr (Option FormValue × Option String))
    (apiKey : Option String) (gw : GatewayCall → Except JsErr String) :
    Direct.action none formDataD apiKey gw = (.ok ⟨401, .text "Unauthorized", none, none⟩, [])
    ∧ Catalog.action false formDataC apiKey gw = (.ok Catalog.adminAuthAbort, [])
    ∧ Catalog.adminAuthAbort.status = 401 :=
  ⟨rfl, rfl, rfl⟩

/-- Claim C6 (confirmed): a valid authenticated Direct-Upload request with a
non-empty file on which the Gateway succeeds is answered with the
base64-decoding of the Gateway's encoded result as binary body, content type
`image/png`, and a `Content-Length` equal to the decoded byte count. -/
theorem direct_success_response (f : FileVal) (key res : String)
    (gw : GatewayCall → Except JsErr String)
    (_hf : f.content ≠ []) (hkey : key ≠ "")
    (hgw : gw (.base64Call (encodeB64 f.content) key "regular" "auto") = .ok res) :
    (Direct.action (some ()) (.ok (some (.file f))) (some key) gw).1
      = .ok ⟨200, .binary (decodeB64 res), some "image/png",
          some (toString (decodeB64 res).length)⟩ := by
  simp [Direct.action, jsTruthy, arrayBufferOf, optStrFalsy, hkey, hgw]

/-- Witness for `direct_success_response` at a concrete request. -/
theorem direct_success_response_witness :
    (([1, 2, 3] : List Nat) ≠ [] ∧ ("k" : String) ≠ "") ∧
      (Direct.action (some ()) (.ok (some (.file ⟨"a.png", [1, 2, 3]⟩))) (some "k")
          (fun _ => .ok "TWFu")).1
        = .ok ⟨200, .binary (decodeB64 "TWFu"), some "image/png",
            some (toString (decodeB64 "TWFu").length)⟩ :=
  ⟨⟨by decide, by decide⟩,
    direct_success_response ⟨"a.png", [1, 2, 3]⟩ "k" "TWFu" (fun _ => .ok "TWFu")
      (by decide) (by decide) rfl⟩

/-- Claim C1 counterexample: the Direct-Upload handler's catch returns the
fixed error string "Failed to process image" without appending the error's
message, so the claimed envelope "Failed to process image: " ++ message does
not hold there. -/
theorem direct_gateway_error_message_counterexample :
    (Direct.action (some ()) (.ok (some (.file ⟨"a.png", [1, 2, 3]⟩))) (some "k")
        (fun _ => .error (.err "boom"))).1
      = .ok ⟨500, .jsonError "Failed to process image", none, none⟩
    ∧ ("Failed to process image" : String) ≠ "Failed to process image: " ++ "boom" :=
  ⟨by decide, by decide⟩

/-- Claim C1 (corrected): when the Gateway call raises any error, both
handlers answer 500 with a structured error envelope and the raw exception
never appears in the body; the Catalog-Aware envelope is
"Failed to process image: " ++ message, while the Direct-Upload envelope is
exactly "Failed to process image" with no message appended. -/
theorem gateway_error_envelope (f : FileVal) (key u : String) (e : JsErr)
    (hf : f.content ≠ []) (hkey : key ≠ "") (hu : u ≠ "") :
    (Direct.action (some ()) (.ok (some (.file f))) (some key) (fun _ => .error e)).1
      = .ok ⟨500, .jsonError "Failed to process image", none, none⟩
    ∧ (Catalog.action true (.ok (some (.file f), none)) (some key) (fun _ => .error e)).1
      = .ok ⟨500, .jsonError ("Failed to process image: " ++ jsErrMessage e), none, none⟩
    ∧ (Catalog.action true (.ok (none, some u)) (some key) (fun _ => .error e)).1
      = .ok ⟨500, .jsonError ("Failed to process image: " ++ jsErrMessage e), none, none⟩ := by
  have henc : encodeB64 f.content ≠ "" := encodeB64_ne_empty f.content hf
  refine ⟨?_, ?_, ?_⟩
  · simp [Direct.action, jsTruthy, arrayBufferOf, optStrFalsy, hkey]
  · simp [Catalog.action, Catalog.noImage, Catalog.catalogBase64img, Catalog.origName,
      optStrFalsy, hkey, hf, henc, List.length_eq_zero, List.length_pos]
  · simp [Catalog.action, Catalog.noImage, Catalog.catalogBase64img, Catalog.origName,
      optStrFalsy, hkey, hu]

/-- Witness for `gateway_error_envelope` at a concrete request. -/
theorem gateway_error_envelope_witness :
    (([1] : List Nat) ≠ [] ∧ ("k" : String) ≠ "" ∧ ("https://u" : String) ≠ "") ∧
      (Direct.action (some ()) (.ok (some (.file ⟨"a.png", [1]⟩))) (some "k")
          (fun _ => .error (.err "boom"))).1
        = .ok ⟨500, .jsonError "Failed to process image", none, none⟩ :=
  ⟨⟨by decide, by decide, by decide⟩,
    (gateway_error_envelope ⟨"a.png", [1]⟩ "k" "https://u" (.err "boom")
      (by decide) (by decide) (by decide)).1⟩

/-- Claim C2 counterexample: a Direct-Upload request carrying a present but
zero-size file is not rejected with 400; it passes validation and the Gateway
is invoked (here answering an empty result), yielding a 200 response. -/
theorem no_image_validation_counterexample :
    Direct.action (some ()) (.ok (some (.file ⟨"a.png", []⟩))) (some "k")
        (fun _ => .ok "")
      = (.ok ⟨200, .binary [], some "image/png", some "0"⟩,
         [.base64Call "" "k" "regular" "auto"]) := by
  decide

/-- Claim C2 (corrected): the Catalog-Aware handler returns 400
"No image provided" with no Gateway call whenever no non-empty file and no
non-empty URL is present (both-empty included); the Direct-Upload handler does
so only when the `image` field is absent or an empty-string value — a present
zero-size file passes its validation. -/
theorem no_image_validation (v imageFile : Option FormValue) (imageUrl : Option String)
    (apiKey : Option String) (gw : GatewayCall → Except JsErr String)
    (hv : v = none ∨ v = some (.str ""))
    (hfile : imageFile = none ∨ ∃ f, imageFile = some (.file f) ∧ f.content = [])
    (hurl : imageUrl = none ∨ imageUrl = some "") :
    Direct.action (some ()) (.ok v) apiKey gw
      = (.ok ⟨400, .jsonError "No image provided", none, none⟩, [])
    ∧ Catalog.action true (.ok (imageFile, imageUrl)) apiKey gw
      = (.ok ⟨400, .jsonError "No image provided", none, none⟩, []) := by
  constructor
  · rcases hv with rfl | rfl <;> simp [Direct.action, jsTruthy]
  · have hni : Catalog.noImage imageFile imageUrl = true := by
      rcases hfile with rfl | ⟨f, rfl, hf⟩
      · rcases hurl with rfl | rfl <;> simp [Catalog.noImage, optStrFalsy]
      · rcases hurl with rfl | rfl <;> simp [Catalog.noImage, optStrFalsy, hf]
    simp [Catalog.action, hni]

/-- Witness for `no_image_validation` at a concrete request. -/
theorem no_image_validation_witness :
    ((none : Option FormValue) = none ∨ (none : Option FormValue) = some (.str "")) ∧
      Direct.action (some ()) (.ok none) (some "k") (fun _ => .ok "")
        = (.ok ⟨400, .jsonError "No image provided", none, none⟩, []) :=
  ⟨Or.inl rfl,
    (no_image_validation none (some (.file ⟨"a", []⟩)) (some "") (some "k")
      (fun _ => .ok "") (Or.inl rfl) (Or.inr ⟨⟨"a", []⟩, rfl, rfl⟩) (Or.inr rfl)).1⟩

/-- Claim C3 counterexample: with the API key absent, the Catalog-Aware
handler's message is "Background removal service not configured (missing
REMOVE_BG_API_KEY).", not the claimed "... (missing API key).". -/
theorem missing_api_key_message_counterexample :
    (Catalog.action true (.ok (some (.file ⟨"a.png", [1]⟩), none)) none
        (fun _ => .ok "QQ==")).1
      = .ok ⟨500, .jsonError
          "Background removal service not configured (missing REMOVE_BG_API_KEY).",
          none, none⟩
    ∧ ("Background removal service not configured (missing REMOVE_BG_API_KEY)." : String)
      ≠ "Background removal service not configured (missing API key)." :=
  ⟨by decide, by decide⟩

/-- Claim C3 (corrected): with the API key absent or empty, both handlers
answer 500 before any Gateway call; the Direct-Upload message is
"Background removal service not configured" and the Catalog-Aware message is
"Background removal service not configured (missing REMOVE_BG_API_KEY).". -/
theorem missing_api_key_guard (f : FileVal) (apiKey : Option String)
    (gw : GatewayCall → Except JsErr String)
    (hf : f.content ≠ []) (hkey : optStrFalsy apiKey = true) :
    Direct.action (some ()) (.ok (some (.file f))) apiKey gw
      = (.ok ⟨500, .jsonError "Background removal service not configured", none, none⟩, [])
    ∧ Catalog.action true (.ok (some (.file f), none)) apiKey gw
      = (.ok ⟨500, .jsonError
          "Background removal service not configured (missing REMOVE_BG_API_KEY).",
          none, none⟩, []) := by
  constructor
  · simp [Direct.action, jsTruthy, arrayBufferOf, hkey]
  · simp [Catalog.action, Catalog.noImage, optStrFalsy_none, hkey, hf, List.length_eq_zero]

/-- Witness for `missing_api_key_guard` at a concrete request. -/
theorem missing_api_key_guard_witness :
    (([1] : List Nat) ≠ [] ∧ optStrFalsy none = true) ∧
      Direct.action (some ()) (.ok (some (.file ⟨"a.png", [1]⟩))) none (fun _ => .ok "")
        = (.ok ⟨500, .jsonError "Background removal service not configured", none, none⟩,
           []) :=
  ⟨⟨by decide, by decide⟩,
    (missing_api_key_guard ⟨"a.png", [1]⟩ none (fun _ => .ok "")
      (by decide) (by decide)).1⟩

/-- Claim C5 counterexample: with a present but zero-size file and a URL both
supplied, the Catalog-Aware handler calls the Gateway with the URL variant,
not the encoded-payload variant. -/
theorem file_precedence_counterexample :
    Catalog.action true (.ok (some (.file ⟨"p.png", []⟩), some "https://u")) (some "k")
        (fun _ => .ok "QQ==")
      = (.ok ⟨200, .success "QQ==" "p.png", none, none⟩,
         [.urlCall "https://u" "k" "regular" "auto"]) := by
  decide

/-- Claim C5 (corrected): with a non-empty file and a URL both supplied, the
file takes precedence: the Gateway is called exactly once, with the
encoded-payload variant built from the file's bytes, never the URL variant. -/
theorem file_precedence (f : FileVal) (u key : String)
    (gw : GatewayCall → Except JsErr String)
    (hf : f.content ≠ []) (hkey : key ≠ "") :
    (Catalog.action true (.ok (some (.file f), some u)) (some key) gw).2
      = [.base64Call (encodeB64 f.content) key "regular" "auto"] := by
  have henc : encodeB64 f.content ≠ "" := encodeB64_ne_empty f.content hf
  rcases hgw : gw (.base64Call (encodeB64 f.content) key "regular" "auto") with e | res <;>
    simp [Catalog.action, Catalog.noImage, Catalog.catalogBase64img, optStrFalsy_some,
      hkey, hf, henc, hgw, List.length_eq_zero, List.length_pos]

/-- Witness for `file_precedence` at a concrete request. -/
theorem file_precedence_witness :
    (([7] : List Nat) ≠ [] ∧ ("k" : String) ≠ "") ∧
      (Catalog.action true (.ok (some (.file ⟨"p.png", [7]⟩), some "https://u")) (some "k")
          (fun _ => .ok "QQ==")).2
        = [.base64Call (encodeB64 [7]) "k" "regular" "auto"] :=
  ⟨⟨by decide, by decide⟩,
    file_precedence ⟨"p.png", [7]⟩ "https://u" "k" (fun _ => .ok "QQ==")
      (by decide) (by decide)⟩

/-- Claim C7 counterexample: a file whose filename is the empty string is
supplied (no URL), yet `originalName` is "Processed Image", not the file's
name. -/
theorem catalog_original_name_counterexample :
    (Catalog.action true (.ok (some (.file ⟨"", [9]⟩), none)) (some "k")
        (fun _ => .ok "Zg==")).1
      = .ok ⟨200, .success "Zg==" "Processed Image", none, none⟩
    ∧ ("Processed Image" : String) ≠ "" :=
  ⟨by decide, by decide⟩

/-- Claim C7 (corrected): a successful Catalog-Aware request is answered with
the envelope carrying the Gateway's still-text-encoded result and an
`originalName` that is the uploaded file's name whenever a file with a
non-empty name was supplied, and exactly "Store Product Image" whenever only
a URL was supplied. -/
theorem catalog_success_envelope (f : FileVal) (u key res res2 : String)
    (gw gw2 : GatewayCall → Except JsErr String)
    (hf : f.content ≠ []) (hname : f.name ≠ "") (hkey : key ≠ "") (hu : u ≠ "")
    (hgw : gw (.base64Call (encodeB64 f.content) key "regular" "auto") = .ok res)
    (hgw2 : gw2 (.urlCall u key "regular" "auto") = .ok res2) :
    (Catalog.action true (.ok (some (.file f), none)) (some key) gw).1
      = .ok ⟨200, .success res f.name, none, none⟩
    ∧ (Catalog.action true (.ok (none, some u)) (some key) gw2).1
      = .ok ⟨200, .success res2 "Store Product Image", none, none⟩ := by
  have henc : encodeB64 f.content ≠ "" := encodeB64_ne_empty f.content hf
  constructor
  · simp [Catalog.action, Catalog.noImage, Catalog.catalogBase64img, Catalog.origName,
      optStrFalsy_none, optStrFalsy_some, hkey, hf, hname, henc, hgw,
      List.length_eq_zero, List.length_pos]
  · simp [Catalog.action, Catalog.noImage, Catalog.catalogBase64img, Catalog.origName,
      optStrFalsy_some, hkey, hu, hgw2]

/-- Witness for `catalog_success_envelope` at a concrete request. -/
theorem catalog_success_envelope_witness :
    (([9] : List Nat) ≠ [] ∧ ("a.png" : String) ≠ "") ∧
      (Catalog.action true (.ok (some (.file ⟨"a.png", [9]⟩), none)) (some "k")
          (fun _ => .ok "Zg==")).1
        = .ok ⟨200, .success "Zg==" "a.png", none, none⟩ :=
  ⟨⟨by decide, by decide⟩,
    (catalog_success_envelope ⟨"a.png", [9]⟩ "https://u" "k" "Zg==" "Zg=="
      (fun _ => .ok "Zg==") (fun _ => .ok "Zg==")
      (by decide) (by decide) (by decide) (by decide) rfl rfl).1⟩

/-- Claim C9 counterexample: an exception thrown while parsing the multipart
form body (before the `try` block) escapes both handlers unhandled instead of
being converted to a taxonomy response. -/
theorem unhandled_fault_counterexample :
    Direct.action (some ()) (.error (.err "Malformed multipart body")) (some "k")
        (fun _ => .ok "")
      = (.error (.err "Malformed multipart body"), [])
    ∧ Catalog.action true (.error (.err "Malformed multipart body")) (some "k")
        (fun _ => .ok "")
      = (.error (.err "Malformed multipart body"), []) :=
  ⟨by decide, by decide⟩

/-- Claim C9 (corrected): once form-data parsing has succeeded (and, in the
Direct-Upload handler, the `image` field is not a non-empty string value,
whose pre-`try` byte read would throw), every failure is converted into a
taxonomy response: both handlers always produce an HTTP response, never an
escaping exception, whatever the authentication outcome, configuration and
Gateway behaviour. -/
theorem handler_boundary_catches (sess : Option Unit) (v : Option FormValue)
    (fd : Option FormValue × Option String) (adminOk : Bool)
    (apiKeyD apiKeyC : Option String) (gwD gwC : GatewayCall → Except JsErr String)
    (hv : ∀ s, v = some (.str s) → s = "") :
    (∃ r, (Direct.action sess (.ok v) apiKeyD gwD).1 = .ok r)
    ∧ (∃ r, (Catalog.action adminOk (.ok fd) apiKeyC gwC).1 = .ok r) := by
  obtain ⟨imageFile, imageUrl⟩ := fd
  constructor
  · cases sess with
    | none => exact ⟨_, rfl⟩
    | some u =>
      cases v with
      | none => exact ⟨_, rfl⟩
      | some fv =>
        cases fv with
        | str s =>
          have hs : s = "" := hv s rfl
          subst hs
          exact ⟨⟨400, .jsonError "No image provided", none, none⟩,
            by simp [Direct.action, jsTruthy]⟩
        | file f =>
          cases hk : optStrFalsy apiKeyD with
          | true =>
            exact ⟨⟨500, .jsonError "Background removal service not configured",
              none, none⟩, by simp [Direct.action, jsTruthy, arrayBufferOf, hk]⟩
          | false =>
            cases hg : gwD (.base64Call (encodeB64 f.content) (apiKeyD.getD "")
                "regular" "auto") with
            | error e =>
              exact ⟨⟨500, .jsonError "Failed to process image", none, none⟩,
                by simp [Direct.action, jsTruthy, arrayBufferOf, hk, hg]⟩
            | ok res =>
              exact ⟨⟨200, .binary (decodeB64 res), some "image/png",
                some (toString (decodeB64 res).length)⟩,
                by simp [Direct.action, jsTruthy, arrayBufferOf, hk, hg]⟩
  · cases adminOk with
    | false => exact ⟨Catalog.adminAuthAbort, rfl⟩
    | true =>
      cases hni : Catalog.noImage imageFile imageUrl with
      | true =>
        exact ⟨⟨400, .jsonError "No image provided", none, none⟩,
          by simp [Catalog.action, hni]⟩
      | false =>
        cases hk : optStrFalsy apiKeyC with
        | true =>
          exact ⟨⟨500, .jsonError
            "Background removal service not configured (missing REMOVE_BG_API_KEY).",
            none, none⟩, by simp [Catalog.action, hni, hk]⟩
        | false =>
          by_cases hbi : Catalog.catalogBase64img imageFile = ""
          · cases hg : gwC (.urlCall (imageUrl.getD "") (apiKeyC.getD "")
                "regular" "auto") with
            | error e =>
              exact ⟨⟨500, .jsonError ("Failed to process image: " ++ jsErrMessage e),
                none, none⟩, by simp [Catalog.action, hni, hk, hbi, hg]⟩
            | ok res =>
              exact ⟨⟨200, .success res (Catalog.origName imageFile imageUrl),
                none, none⟩, by simp [Catalog.action, hni, hk, hbi, hg]⟩
          · cases hg : gwC (.base64Call (Catalog.catalogBase64img imageFile)
                (apiKeyC.getD "") "regular" "auto") with
            | error e =>
              exact ⟨⟨500, .jsonError ("Failed to process image: " ++ jsErrMessage e),
                none, none⟩, by simp [Catalog.action, hni, hk, hbi, hg]⟩
            | ok res =>
              exact ⟨⟨200, .success res (Catalog.origName imageFile imageUrl),
                none, none⟩, by simp [Catalog.action, hni, hk, hbi, hg]⟩

/-- Witness for `handler_boundary_catches` at a concrete request. -/
theorem handler_boundary_catches_witness :
    (∀ s, (some (FormValue.file ⟨"a.png", [1]⟩) : Option FormValue)
        = some (.str s) → s = "") ∧
      ((∃ r, (Direct.action (some ()) (.ok (some (.file ⟨"a.png", [1]⟩))) (some "k")
          (fun _ => .error .other)).1 = .ok r)
      ∧ (∃ r, (Catalog.action true (.ok (some (.file ⟨"a.png", [1]⟩), none)) (some "k")
          (fun _ => .error .other)).1 = .ok r)) :=
  ⟨(fun s h => by simp at h),
    handler_boundary_catches (some ()) (some (.file ⟨"a.png", [1]⟩))
      (some (.file ⟨"a.png", [1]⟩), none) true (some "k") (some "k")
      (fun _ => .error .other) (fun _ => .error .other)
      (fun s h => by simp at h)⟩

/-- Claim C10 counterexample: with a zero-size file whose filename is the
empty string plus a non-empty URL, `originalName` is "Store Product Image",
not the empty file's filename (which is ""). -/
theorem empty_file_url_name_counterexample :
    Catalog.action true (.ok (some (.file ⟨"", []⟩), some "https://u")) (some "k")
        (fun _ => .ok "QQ==")
      = (.ok ⟨200, .success "QQ==" "Store Product Image", none, none⟩,
         [.urlCall "https://u" "k" "regular" "auto"])
    ∧ ("Store Product Image" : String) ≠ "" :=
  ⟨by decide, by decide⟩

/-- Claim C10 (corrected): a Catalog-Aware request with a zero-size file and
a non-empty URL passes validation and calls the Gateway with the URL variant,
and `originalName` is the empty file's filename whenever that filename is
non-empty (when it is empty, "Store Product Image" is used); a non-empty file
with an empty filename and no URL yields `originalName` "Processed Image". -/
theorem empty_file_url_behavior (f g : FileVal) (u key res res2 : String)
    (gw gw2 : GatewayCall → Except JsErr String)
    (hf : f.content = []) (hu : u ≠ "") (hkey : key ≠ "")
    (hgw : gw (.urlCall u key "regular" "auto") = .ok res)
    (hg : g.content ≠ []) (hgname : g.name = "")
    (hgw2 : gw2 (.base64Call (encodeB64 g.content) key "regular" "auto") = .ok res2) :
    Catalog.action true (.ok (some (.file f), some u)) (some key) gw
      = (.ok ⟨200, .success res
            (if f.name = "" then "Store Product Image" else f.name), none, none⟩,
         [.urlCall u key "regular" "auto"])
    ∧ Catalog.action true (.ok (some (.file g), none)) (some key) gw2
      = (.ok ⟨200, .success res2 "Processed Image", none, none⟩,
         [.base64Call (encodeB64 g.content) key "regular" "auto"]) := by
  have henc : encodeB64 g.content ≠ "" := encodeB64_ne_empty g.content hg
  constructor
  · simp [Catalog.action, Catalog.noImage, Catalog.catalogBase64img, Catalog.origName,
      optStrFalsy_some, hkey, hf, hu, hgw]
  · simp [Catalog.action, Catalog.noImage, Catalog.catalogBase64img, Catalog.origName,
      optStrFalsy_none, optStrFalsy_some, hkey, hg, hgname, henc, hgw2,
      List.length_eq_zero, List.length_pos]

/-- Witness for `empty_file_url_behavior` at a concrete request. -/
theorem empty_file_url_behavior_witness :
    (([] : List Nat) = [] ∧ ("https://u" : String) ≠ "") ∧
      Catalog.action true (.ok (some (.file ⟨"prod.png", []⟩), some "https://u"))
          (some "k") (fun _ => .ok "QQ==")
        = (.ok ⟨200, .success "QQ=="
              (if ("prod.png" : String) = "" then "Store Product Image" else "prod.png"),
              none, none⟩,
           [.urlCall "https://u" "k" "regular" "auto"]) :=
  ⟨⟨rfl, by decide⟩,
    (empty_file_url_behavior ⟨"prod.png", []⟩ ⟨"", [3]⟩ "https://u" "k" "QQ==" "Zg=="
      (fun _ => .ok "QQ==") (fun _ => .ok "Zg==")
      rfl (by decide) (by decide) rfl (by decide) rfl rfl).1⟩
